import Mathlib

/-!
Shallow embedding of `PyGMO/alife/robot.py` (the ALife `Robot` class).

Modelling conventions:
* Python floats are modelled exactly as rationals (`ℚ`); every constant in the
  source (0.35, 3.8, 0.25, 1.2, ...) is a dyadic/decimal rational and all
  arithmetic performed by the placement code is exact on them.
* Python 2 integer division `a / b` on ints is floor division, modelled by
  `Int.fdiv`; Python `%` agrees with Lean's `Int.emod` (result has the sign of
  the divisor), and loop indices produced by `range` are naturals.
* The ODE handles `world` and `space` are opaque and carry no state used by
  this class, so they are dropped.  A fresh `ode.Body` has identity rotation
  and zero velocities; a hinge joint's velocity parameter defaults to 0.
* Python raising an exception is modelled by returning the unchanged state
  paired with `some msg`: `set_num_legs` returns `(Robot × Option String)`,
  where the second component is the raised exception message, if any.
* `self.main_body` is an alias of the first entry of `self.bodies_geoms`.
  Mutation of the torso through the alias (in `set_body_density` and `reset`)
  is modelled by updating both the `main_body` field and the list entry that
  carries the torso's (unique) name "robot_body".
-/

namespace ALife

/-- A 3-vector of exact coordinates (models an ODE position / axis triple). -/
structure Vec3 where
  x : ℚ
  y : ℚ
  z : ℚ
deriving DecidableEq

/-- An ODE mass specification, as set by `ode.Mass().setBox(...)` or
`ode.Mass().setCappedCylinder(...)`. -/
inductive MassSpec where
  | box (density sx sy sz : ℚ)
  | cappedCylinder (density : ℚ) (direction : ℤ) (radius length : ℚ)
deriving DecidableEq

/-- The collision-geometry shape: `ode.GeomBox(space, lengths)` or
`ode.GeomCCylinder(space, length, radius)`. -/
inductive GeomShape where
  | box (lengths : Vec3)
  | ccylinder (radius length : ℚ)
deriving DecidableEq

/-- An ODE collision geometry with the name tag the source attaches to it. -/
structure Geom where
  name : String
  shape : GeomShape
deriving DecidableEq

/-- An `ode.Body` together with the extra attributes the source stores on it
(`name`, `initial_position`, `initial_rotation`).  The rotation is the ODE
row-major 3x3 matrix, kept as a list of nine rationals. -/
structure Body where
  name : String
  position : Vec3
  rotation : List ℚ
  initial_position : Vec3
  initial_rotation : List ℚ
  mass : MassSpec
  linearVel : Vec3
  angularVel : Vec3
deriving DecidableEq

/-- An `ode.HingeJoint`: attachment is recorded by body name (names are unique
within a robot), plus anchor, axis, and the parameters set in
`_create_leg_joint` (`ParamLoStop`, `ParamHiStop`, `ParamFMax`, `ParamVel`). -/
structure Joint where
  name : String
  body1 : String
  body2 : String
  anchor : Vec3
  axis : Vec3
  loStop : ℚ
  hiStop : ℚ
  fMax : ℚ
  vel : ℚ
deriving DecidableEq

/-- The `Robot` object state: every `self.*` attribute of the Python class
(the leading underscores of the private attributes are dropped). -/
structure Robot where
  bodies_geoms : List (Body × Geom)
  joints : List Joint
  name : String
  body_sections : ℤ
  body_density : ℚ
  body_size : Vec3
  legs : ℤ
  leg_radius : ℚ
  leg_length : ℚ
  leg_density : ℚ
  leg_y_offset : ℚ
  leg_rotation : List ℚ
  passpairs : List (String × String)
  center_obj : String
  main_body : Body
  main_geom : Geom
deriving DecidableEq

/-- Identity rotation matrix: what `getRotation()` returns on a fresh body. -/
def identityRotation : List ℚ := [1, 0, 0, 0, 1, 0, 0, 0, 1]

/-- The fixed leg rotation frame `self._leg_rotation`
`(1.0, 0.0, 0.0, 0.0, 0.0, -1.0, 0.0, 1.0, 0.0)`. -/
def legRotationFrame : List ℚ := [1, 0, 0, 0, 0, -1, 0, 1, 0]

/-- The name of leg number `n` (0-based loop index): `"robot_leg" + str(n+1)`. -/
def mkLegName (n : ℕ) : String := "robot_leg" ++ toString (n + 1)

/-- Leg x-axis offset, lines 123-140 of `robot.py`.
`legs_per_side = self._legs / 2` (Python 2 floor division on ints, `Int.fdiv`);
the branch on `legs_per_side % 2 != 0` selects the odd/even spacing formula,
and the inner divisions `(n-2)/4`, `n/4` are again Python int divisions. -/
def leg_x_offset (legs : ℤ) (body_size_x : ℚ) (n : ℕ) : ℚ :=
  let legs_per_side : ℤ := Int.fdiv legs 2
  if legs_per_side % 2 ≠ 0 then
    let leg_x_spacing : ℚ := body_size_x / (legs_per_side : ℚ)
    if n < 2 then 0
    else
      if n % 4 > 1 then (((((n : ℤ) - 2).fdiv 4) + 1 : ℤ) : ℚ) * leg_x_spacing
      else (((((n : ℤ) - 2).fdiv 4) + 1 : ℤ) : ℚ) * (-leg_x_spacing)
  else
    let leg_x_spacing : ℚ := (body_size_x / 2) / (legs_per_side : ℚ)
    if n % 4 > 1 then ((((n : ℤ).fdiv 4) + 1 : ℤ) : ℚ) * leg_x_spacing
    else ((((n : ℤ).fdiv 4) + 1 : ℤ) : ℚ) * (-leg_x_spacing)

/-- Leg z-axis offset, lines 124 and 142-145 of `robot.py`:
`leg_z_spacing = (body_size.z/2)/2`, positive for even `n`, negative for odd. -/
def leg_z_offset (body_size_z : ℚ) (n : ℕ) : ℚ :=
  let leg_z_spacing : ℚ := (body_size_z / 2) / 2
  if n % 2 = 0 then leg_z_spacing else -leg_z_spacing

/-- The leg x-offset rule as the specification states it (for comparison with
`leg_x_offset`, which is translated from the code): `legs_per_side` is the leg
count div 2; if `legs_per_side` is odd then `leg_x_spacing =
body_size.x / legs_per_side`, the offset is 0 for `n < 2` and otherwise
`bucket = (n-2) div 4 + 1` signed by `n mod 4 > 1`; if `legs_per_side` is even
then `leg_x_spacing = (body_size.x/2) / legs_per_side` and
`bucket = n div 4 + 1` with the same sign rule.  The bucket arithmetic is on
the natural 0-based leg index `n`. -/
def spec_leg_x_offset (legs : ℤ) (body_size_x : ℚ) (n : ℕ) : ℚ :=
  let legs_per_side : ℤ := legs / 2
  if legs_per_side % 2 = 1 then
    let leg_x_spacing : ℚ := body_size_x / (legs_per_side : ℚ)
    if n < 2 then 0
    else
      let bucket : ℕ := (n - 2) / 4 + 1
      if n % 4 > 1 then (bucket : ℚ) * leg_x_spacing
      else -((bucket : ℚ) * leg_x_spacing)
  else
    let leg_x_spacing : ℚ := (body_size_x / 2) / (legs_per_side : ℚ)
    let bucket : ℕ := n / 4 + 1
    if n % 4 > 1 then (bucket : ℚ) * leg_x_spacing
    else -((bucket : ℚ) * leg_x_spacing)

/-- The leg body built by `_create_leg` for index `n`, attached to `body`. -/
def legBody (r : Robot) (body : Body) (n : ℕ) : Body :=
  let leg_position : Vec3 :=
    { x := body.position.x + leg_x_offset r.legs r.body_size.x n
      y := body.position.y - r.leg_y_offset
      z := body.position.z + leg_z_offset r.body_size.z n }
  { name := mkLegName n
    position := leg_position
    rotation := r.leg_rotation
    initial_position := leg_position
    initial_rotation := r.leg_rotation
    mass := .cappedCylinder r.leg_density 3 r.leg_radius r.leg_length
    linearVel := ⟨0, 0, 0⟩
    angularVel := ⟨0, 0, 0⟩ }

/-- The leg collision geometry built by `_create_leg` for index `n`. -/
def legGeom (r : Robot) (n : ℕ) : Geom :=
  { name := mkLegName n
    shape := .ccylinder r.leg_radius r.leg_length }

/-- The hinge joint built by `_create_leg_joint(body, leg, n)`.
Anchor `(leg.x, body.y - body_size.y/2, leg.z)`, axis `(1,0,0)`,
`ParamLoStop = -1.2`, `ParamHiStop = 1.2`, `ParamFMax = 10`. -/
def legJoint (r : Robot) (body leg : Body) (n : ℕ) : Joint :=
  { name := body.name ++ "_leg" ++ toString (n + 1)
    body1 := body.name
    body2 := leg.name
    anchor := ⟨leg.position.x, body.position.y - r.body_size.y / 2, leg.position.z⟩
    axis := ⟨1, 0, 0⟩
    loStop := -(6/5)
    hiStop := 6/5
    fMax := 10
    vel := 0 }

/-- `_create_leg_joint(body, leg, n)`: build the hinge joint and append it. -/
def create_leg_joint (r : Robot) (body leg : Body) (n : ℕ) : Robot :=
  { r with joints := r.joints ++ [legJoint r body leg n] }

/-- `_create_leg(body, n)`: build the leg body and geometry, append them to
`bodies_geoms`, register the no-collision pair, and create the hinge joint. -/
def create_leg (r : Robot) (body : Body) (n : ℕ) : Robot :=
  let leg := legBody r body n
  let r := { r with
    bodies_geoms := r.bodies_geoms ++ [(leg, legGeom r n)]
    passpairs := r.passpairs ++ [(body.name, leg.name)] }
  create_leg_joint r body leg n

/-- `_create_legs(body)`: `for i in range(self._legs): self._create_leg(body, i)`.
`range` of a non-positive int is empty, hence `Int.toNat`. -/
def create_legs (r : Robot) (body : Body) : Robot :=
  (List.range r.legs.toNat).foldl (fun s i => create_leg s body i) r

/-- The torso body built by `__init__`: name "robot_body", box mass from the
default density 0.35 = 7/20 and body size (4,3,4), placed at `body_position`
with its initial position/rotation snapshot taken at creation (a fresh ODE
body has identity rotation and zero velocities). -/
def initMainBody (body_position : Vec3) : Body :=
  { name := "robot_body"
    position := body_position
    rotation := identityRotation
    initial_position := body_position
    initial_rotation := identityRotation
    mass := .box (7/20) 4 3 4
    linearVel := ⟨0, 0, 0⟩
    angularVel := ⟨0, 0, 0⟩ }

/-- The torso collision geometry `ode.GeomBox(space, lengths=body_size)`. -/
def initMainGeom : Geom := { name := "robot_body", shape := .box ⟨4, 3, 4⟩ }

/-- The `Robot` state assembled by `__init__(world, space, body_position,
name)` just before the `_create_legs` call: default parameters body density
0.35 = 7/20, body size (4,3,4), 4 legs, leg radius 0.25 = 1/4, leg length
3.8 = 19/5, leg density 0.25 = 1/4,
`leg_y_offset = leg_length/2 + body_size.y/2 - min(leg_radius*2, 1.0)`,
and `bodies_geoms` holding the torso pair alone. -/
def initState (body_position : Vec3) (name : String) : Robot :=
  { bodies_geoms := [(initMainBody body_position, initMainGeom)]
    joints := []
    name := name
    body_sections := 1
    body_density := 7/20
    body_size := ⟨4, 3, 4⟩
    legs := 4
    leg_radius := 1/4
    leg_length := 19/5
    leg_density := 1/4
    leg_y_offset := (19/5) / 2 + 3 / 2 - min ((1/4) * 2) 1
    leg_rotation := legRotationFrame
    passpairs := []
    center_obj := "robot_body"
    main_body := initMainBody body_position
    main_geom := initMainGeom }

/-- The full constructor: build the initial state, then create the legs for
the main body.  `_body_sections = 1`, so `_create_body_sections` is not
invoked (it is a `pass` placeholder in any case). -/
def initRobot (body_position : Vec3) (name : String) : Robot :=
  create_legs (initState body_position name) (initMainBody body_position)

/-- The default constructor position `[0.0, 150.0, 0.0]`. -/
def defaultPosition : Vec3 := ⟨0, 150, 0⟩

/-- `get_position()`. -/
def get_position (r : Robot) : Vec3 := r.main_body.position

/-- `get_joints()`. -/
def get_joints (r : Robot) : List Joint := r.joints

/-- `get_num_legs()`. -/
def get_num_legs (r : Robot) : ℤ := r.legs

/-- `set_num_legs(n)`: raise `Exception("OddLegNumber")` (the spec's
`InvalidConfiguration` error) when `n` is odd — the raise happens before any
assignment, so the state is returned unchanged; otherwise store the new leg
count, reset `bodies_geoms` to the torso pair alone and re-create the legs.
Note that neither `joints` nor `passpairs` is cleared. -/
def set_num_legs (r : Robot) (n : ℤ) : Robot × Option String :=
  if n % 2 ≠ 0 then (r, some "OddLegNumber")
  else
    let r := { r with
      legs := n
      bodies_geoms := [(r.main_body, r.main_geom)] }
    (create_legs r r.main_body, none)

/-- `get_body_density()`. -/
def get_body_density (r : Robot) : ℚ := r.body_density

/-- `set_body_density(density)`: store the density and recompute the torso's
box mass from it and the current body size.  The torso body is aliased inside
`bodies_geoms`; the alias is resolved by its unique name "robot_body". -/
def set_body_density (r : Robot) (density : ℚ) : Robot :=
  let r := { r with body_density := density }
  let newMass : MassSpec :=
    .box r.body_density r.body_size.x r.body_size.y r.body_size.z
  { r with
    main_body := { r.main_body with mass := newMass }
    bodies_geoms := r.bodies_geoms.map fun p =>
      if p.1.name = "robot_body" then ({ p.1 with mass := newMass }, p.2) else p }

/-- `get_leg_density()`. -/
def get_leg_density (r : Robot) : ℚ := r.leg_density

/-- The name test of `set_leg_density`:
`body.name[0:len("robot_leg")] == "robot_leg"`. -/
def isLegName (s : String) : Bool := s.take ("robot_leg".length) == "robot_leg"

/-- `set_leg_density(density)`: store the density and recompute the
capped-cylinder mass of every body whose name starts with "robot_leg". -/
def set_leg_density (r : Robot) (density : ℚ) : Robot :=
  let r := { r with leg_density := density }
  { r with
    bodies_geoms := r.bodies_geoms.map fun p =>
      if isLegName p.1.name then
        ({ p.1 with
            mass := .cappedCylinder r.leg_density 3 r.leg_radius r.leg_length },
          p.2)
      else p }

/-- The per-body action of `reset`: restore the initial snapshot and zero both
velocities. -/
def resetBody (b : Body) : Body :=
  { b with
    position := b.initial_position
    rotation := b.initial_rotation
    linearVel := ⟨0, 0, 0⟩
    angularVel := ⟨0, 0, 0⟩ }

/-- `reset()`: restore every body in `bodies_geoms` (the aliased torso
included) and set every joint's `ParamVel` to 0. -/
def reset (r : Robot) : Robot :=
  { r with
    bodies_geoms := r.bodies_geoms.map fun p => (resetBody p.1, p.2)
    main_body := resetBody r.main_body
    joints := r.joints.map fun j => { j with vel := 0 } }

/-- A whole session of `set_num_legs` calls, in order (the robot state after
an exception is the unchanged state, as in the source). -/
def runSetLegs (r : Robot) (ns : List ℤ) : Robot :=
  ns.foldl (fun s n => (set_num_legs s n).1) r

/-! ### Structural lemmas -/

/-- `_create_leg` only appends: one body/geometry pair, one collision-filter
pair, one joint; every other attribute is untouched. -/
theorem create_leg_eq (r : Robot) (b : Body) (n : ℕ) :
    create_leg r b n = { r with
      bodies_geoms := r.bodies_geoms ++ [(legBody r b n, legGeom r n)]
      passpairs := r.passpairs ++ [(b.name, mkLegName n)]
      joints := r.joints ++ [legJoint r b (legBody r b n) n] } := rfl

theorem legBody_update (r : Robot) (X Y Z) (b : Body) (j : ℕ) :
    legBody { r with bodies_geoms := X, passpairs := Y, joints := Z } b j =
      legBody r b j := rfl

theorem legGeom_update (r : Robot) (X Y Z) (j : ℕ) :
    legGeom { r with bodies_geoms := X, passpairs := Y, joints := Z } j =
      legGeom r j := rfl

theorem legJoint_update (r : Robot) (X Y Z) (b leg : Body) (j : ℕ) :
    legJoint { r with bodies_geoms := X, passpairs := Y, joints := Z } b leg j =
      legJoint r b leg j := rfl

/-- Folding `_create_leg` over a list of indices appends the corresponding
legs, pairs and joints in order. -/
theorem foldl_create_leg (b : Body) (l : List ℕ) (r : Robot) :
    l.foldl (fun s i => create_leg s b i) r = { r with
      bodies_geoms := r.bodies_geoms ++ l.map fun i => (legBody r b i, legGeom r i)
      passpairs := r.passpairs ++ l.map fun i => (b.name, mkLegName i)
      joints := r.joints ++ l.map fun i => legJoint r b (legBody r b i) i } := by
  induction l generalizing r with
  | nil => simp
  | cons i l ih =>
      rw [List.foldl_cons, ih, create_leg_eq]
      simp [legBody_update, legGeom_update, legJoint_update]

/-- `_create_legs(body)` in closed form. -/
theorem create_legs_eq (r : Robot) (b : Body) :
    create_legs r b = { r with
      bodies_geoms := r.bodies_geoms ++
        (List.range r.legs.toNat).map fun i => (legBody r b i, legGeom r i)
      passpairs := r.passpairs ++
        (List.range r.legs.toNat).map fun i => (b.name, mkLegName i)
      joints := r.joints ++
        (List.range r.legs.toNat).map fun i => legJoint r b (legBody r b i) i } :=
  foldl_create_leg b _ r

/-- Odd argument: `set_num_legs` raises before mutating anything. -/
theorem set_num_legs_odd (r : Robot) (n : ℤ) (h : n % 2 ≠ 0) :
    set_num_legs r n = (r, some "OddLegNumber") := by
  simp [set_num_legs, h]

/-- Even argument: `set_num_legs` stores the count, drops the list to the
torso pair and re-creates the legs. -/
theorem set_num_legs_even (r : Robot) (n : ℤ) (h : n % 2 = 0) :
    set_num_legs r n =
      (create_legs { r with legs := n, bodies_geoms := [(r.main_body, r.main_geom)] }
        r.main_body, none) := by
  simp [set_num_legs, h]

/-- Every generated leg name passes the `set_leg_density` name test. -/
theorem isLegName_mkLegName (n : ℕ) : isLegName (mkLegName n) = true := by
  have h : (mkLegName n).take ("robot_leg".length) = "robot_leg" := by
    apply String.ext
    simp [mkLegName, String.data_take]
    rw [show ("robot_leg".length) = ("robot_leg".data).length from rfl]
    exact List.take_left _ _
  simp [isLegName, h]

/-- The torso's name does not pass the leg-name test. -/
theorem isLegName_robot_body : isLegName "robot_body" = false := by decide

/-- The component-wise effect of a successful (even-argument) `set_num_legs`:
the exception slot is empty, the leg count is stored, the body/geometry list
is the torso plus `n.toNat` fresh pairs, exactly `n.toNat` joints and
collision-filter pairs are appended, and the remaining attributes persist. -/
theorem set_num_legs_even_parts (r : Robot) (n : ℤ) (h : n % 2 = 0) :
    (set_num_legs r n).2 = none ∧
    (set_num_legs r n).1.legs = n ∧
    (set_num_legs r n).1.bodies_geoms.length = 1 + n.toNat ∧
    (set_num_legs r n).1.joints.length = r.joints.length + n.toNat ∧
    (set_num_legs r n).1.passpairs.length = r.passpairs.length + n.toNat ∧
    (set_num_legs r n).1.main_body = r.main_body ∧
    (set_num_legs r n).1.main_geom = r.main_geom := by
  rw [set_num_legs_even r n h, create_legs_eq]
  simp [Nat.add_comm]

/-- Joints are only ever appended by `set_num_legs`, and every appended joint
attaches the robot's main body (by name) to a body carrying a leg name. -/
theorem set_num_legs_joints_append (r : Robot) (n : ℤ) :
    ∃ t, (set_num_legs r n).1.joints = r.joints ++ t ∧
      ∀ j ∈ t, j.body1 = r.main_body.name ∧ isLegName j.body2 = true := by
  by_cases h : n % 2 = 0
  · rw [set_num_legs_even r n h, create_legs_eq]
    refine ⟨_, rfl, ?_⟩
    intro j hj
    simp only [List.mem_map, List.mem_range] at hj
    obtain ⟨i, -, rfl⟩ := hj
    exact ⟨rfl, isLegName_mkLegName i⟩
  · rw [set_num_legs_odd r n h]
    exact ⟨[], by simp⟩

/-- Collision-filter pairs are only ever appended by `set_num_legs`. -/
theorem set_num_legs_passpairs_append (r : Robot) (n : ℤ) :
    ∃ t, (set_num_legs r n).1.passpairs = r.passpairs ++ t := by
  by_cases h : n % 2 = 0
  · rw [set_num_legs_even r n h, create_legs_eq]
    exact ⟨_, rfl⟩
  · rw [set_num_legs_odd r n h]
    exact ⟨[], by simp⟩

/-- `set_num_legs` never touches the aliased torso. -/
theorem set_num_legs_main_body (r : Robot) (n : ℤ) :
    (set_num_legs r n).1.main_body = r.main_body := by
  by_cases h : n % 2 = 0
  · rw [set_num_legs_even r n h, create_legs_eq]
  · rw [set_num_legs_odd r n h]

/-- Across any all-even session, joints accumulate: the final joint list
length is the initial one plus the number of legs created by each call. -/
theorem runSetLegs_joints_length (ns : List ℤ) (r : Robot)
    (h : ∀ n ∈ ns, n % 2 = 0) :
    (runSetLegs r ns).joints.length =
      r.joints.length + (ns.map Int.toNat).sum := by
  induction ns generalizing r with
  | nil => simp [runSetLegs]
  | cons n ns ih =>
      have hn : n % 2 = 0 := h n (by simp)
      have hstep := (set_num_legs_even_parts r n hn).2.2.2.1
      have := ih (set_num_legs r n).1 (fun m hm => h m (by simp [hm]))
      simp only [runSetLegs, List.foldl_cons] at this ⊢
      rw [this, hstep]
      simp
      omega

/-- Across any all-even session, collision-filter pairs accumulate the same
way. -/
theorem runSetLegs_passpairs_length (ns : List ℤ) (r : Robot)
    (h : ∀ n ∈ ns, n % 2 = 0) :
    (runSetLegs r ns).passpairs.length =
      r.passpairs.length + (ns.map Int.toNat).sum := by
  induction ns generalizing r with
  | nil => simp [runSetLegs]
  | cons n ns ih =>
      have hn : n % 2 = 0 := h n (by simp)
      have hstep := (set_num_legs_even_parts r n hn).2.2.2.2.1
      have := ih (set_num_legs r n).1 (fun m hm => h m (by simp [hm]))
      simp only [runSetLegs, List.foldl_cons] at this ⊢
      rw [this, hstep]
      simp
      omega

/-- Across any session (even arguments or not), the main body is preserved
and all joints attach it, by name, to leg-named bodies — provided that held
at the start. -/
theorem runSetLegs_joints_shape (ns : List ℤ) (r : Robot)
    (hmain : r.main_body.name = "robot_body")
    (hj : ∀ j ∈ r.joints, j.body1 = "robot_body" ∧ isLegName j.body2 = true) :
    (runSetLegs r ns).main_body.name = "robot_body" ∧
    ∀ j ∈ (runSetLegs r ns).joints,
      j.body1 = "robot_body" ∧ isLegName j.body2 = true := by
  induction ns generalizing r with
  | nil => exact ⟨hmain, hj⟩
  | cons n ns ih =>
      simp only [runSetLegs, List.foldl_cons] at ih ⊢
      apply ih
      · rw [set_num_legs_main_body]; exact hmain
      · obtain ⟨t, ht, htj⟩ := set_num_legs_joints_append r n
        rw [ht]
        intro j hmem
        rcases List.mem_append.mp hmem with hmem | hmem
        · exact hj j hmem
        · obtain ⟨h1, h2⟩ := htj j hmem
          exact ⟨by rw [h1, hmain], h2⟩

/-- The constructed robot in closed form. -/
theorem initRobot_eq (p : Vec3) (nm : String) :
    initRobot p nm = { initState p nm with
      bodies_geoms := (initMainBody p, initMainGeom) ::
        (List.range 4).map fun i =>
          (legBody (initState p nm) (initMainBody p) i, legGeom (initState p nm) i)
      passpairs := (List.range 4).map fun i => ("robot_body", mkLegName i)
      joints := (List.range 4).map fun i =>
        legJoint (initState p nm) (initMainBody p)
          (legBody (initState p nm) (initMainBody p) i) i } := by
  rw [initRobot, create_legs_eq]
  simp [initState, initMainBody]

/-! ### The x-offset rule as the specification words it -/

theorem fdiv_two_eq (a : ℤ) : a.fdiv 2 = a / 2 :=
  Int.fdiv_eq_ediv a (by norm_num)

/-- The code's x-offset computation coincides with the specification's rule
on every input. -/
theorem leg_x_offset_eq_spec (legs : ℤ) (bx : ℚ) (n : ℕ) :
    leg_x_offset legs bx n = spec_leg_x_offset legs bx n := by
  have hb2 : 2 ≤ n → ((n : ℤ) - 2).fdiv 4 + 1 = (((n - 2) / 4 + 1 : ℕ) : ℤ) := by
    intro h
    rw [Int.fdiv_eq_ediv _ (by norm_num)]
    omega
  have hb4 : (n : ℤ).fdiv 4 + 1 = ((n / 4 + 1 : ℕ) : ℤ) := by
    rw [Int.fdiv_eq_ediv _ (by norm_num)]
    omega
  simp only [leg_x_offset, spec_leg_x_offset]
  rw [fdiv_two_eq]
  split_ifs <;> first
    | rfl
    | omega
    | (rw [hb2 (by omega)]; simp only [Int.cast_natCast]; try ring)
    | (rw [hb4]; simp only [Int.cast_natCast]; try ring)

/-- Branch form of the spec rule: odd `legs_per_side`, leg index at least 2. -/
theorem spec_leg_x_offset_odd_ge2 (legs : ℤ) (bx : ℚ) (n : ℕ)
    (hodd : legs / 2 % 2 = 1) (hge : 2 ≤ n) :
    spec_leg_x_offset legs bx n =
      (if n % 4 > 1 then 1 else -1) * (((n - 2) / 4 + 1 : ℕ) : ℚ) *
        (bx / ((legs / 2 : ℤ) : ℚ)) := by
  simp only [spec_leg_x_offset]
  rw [if_pos hodd, if_neg (by omega)]
  split_ifs <;> ring

/-- Branch form of the spec rule: odd `legs_per_side`, leg index below 2. -/
theorem spec_leg_x_offset_odd_lt2 (legs : ℤ) (bx : ℚ) (n : ℕ)
    (hodd : legs / 2 % 2 = 1) (hlt : n < 2) :
    spec_leg_x_offset legs bx n = 0 := by
  simp only [spec_leg_x_offset]
  rw [if_pos hodd, if_pos hlt]

/-- Branch form of the spec rule: even `legs_per_side`. -/
theorem spec_leg_x_offset_even (legs : ℤ) (bx : ℚ) (n : ℕ)
    (heven : ¬ legs / 2 % 2 = 1) :
    spec_leg_x_offset legs bx n =
      (if n % 4 > 1 then 1 else -1) * ((n / 4 + 1 : ℕ) : ℚ) *
        ((bx / 2) / ((legs / 2 : ℤ) : ℚ)) := by
  simp only [spec_leg_x_offset]
  rw [if_neg heven]
  split_ifs <;> ring

/-! ### Claims -/

/-- C1: for every leg index `n` with `legs_per_side` the leg count div 2, the
x-offset computed by `_create_leg` follows the specification's piecewise rule
exactly — odd `legs_per_side`: spacing `body_size.x / legs_per_side`, offset 0
for `n < 2`, otherwise `((n-2) div 4 + 1) * spacing` signed positive iff
`n mod 4 > 1`; even `legs_per_side`: spacing `(body_size.x/2) / legs_per_side`
and `(n div 4 + 1) * spacing` with the same sign rule. -/
theorem C1_x_offset_formula (legs : ℤ) (bx : ℚ) (n : ℕ) :
    leg_x_offset legs bx n = spec_leg_x_offset legs bx n :=
  leg_x_offset_eq_spec legs bx n

/-- C3: for every even integer `N ≥ 2`, `set_num_legs N` succeeds (raises no
exception), `get_num_legs` then returns `N`, and the body/geometry list has
exactly `N + 1` entries, headed by the torso pair. -/
theorem C3_even_set_num_legs (r : Robot) (N : ℤ)
    (h2 : 2 ≤ N) (he : N % 2 = 0) :
    (set_num_legs r N).2 = none ∧
    get_num_legs (set_num_legs r N).1 = N ∧
    (set_num_legs r N).1.bodies_geoms.length = N.toNat + 1 ∧
    (set_num_legs r N).1.bodies_geoms.head? = some (r.main_body, r.main_geom) := by
  obtain ⟨ha, hb, hc, -⟩ := set_num_legs_even_parts r N he
  refine ⟨ha, hb, by omega, ?_⟩
  rw [set_num_legs_even r N he, create_legs_eq]
  simp

/-- C3 witness: `set_num_legs 2` on a freshly constructed robot. -/
theorem C3_witness :
    (set_num_legs (initRobot defaultPosition "") 2).2 = none ∧
    get_num_legs (set_num_legs (initRobot defaultPosition "") 2).1 = 2 ∧
    (set_num_legs (initRobot defaultPosition "") 2).1.bodies_geoms.length =
      (2 : ℤ).toNat + 1 ∧
    (set_num_legs (initRobot defaultPosition "") 2).1.bodies_geoms.head? =
      some ((initRobot defaultPosition "").main_body,
        (initRobot defaultPosition "").main_geom) :=
  C3_even_set_num_legs (initRobot defaultPosition "") 2 (by norm_num) (by norm_num)

/-- C4: for every odd integer `N`, `set_num_legs N` fails with the
`InvalidConfiguration` error (the raised `"OddLegNumber"` exception) and the
robot state — leg count, body/geometry list, joint list, collision-filter
list — is exactly the state before the call (the raise precedes every
assignment). -/
theorem C4_odd_set_num_legs (r : Robot) (N : ℤ) (h : Odd N) :
    set_num_legs r N = (r, some "OddLegNumber") := by
  apply set_num_legs_odd
  rw [Int.odd_iff] at h
  omega

/-- C4 witness: `set_num_legs 3` on a freshly constructed robot. -/
theorem C4_witness :
    set_num_legs (initRobot defaultPosition "") 3 =
      (initRobot defaultPosition "", some "OddLegNumber") :=
  C4_odd_set_num_legs (initRobot defaultPosition "") 3 ⟨1, by norm_num⟩

/-- C10: `set_num_legs` raises exactly when its argument is odd; every even
argument is accepted, and a non-positive even argument runs the leg-creation
loop zero times — the body/geometry list shrinks to the torso pair alone and
no joint or collision-filter pair is added, the stored (non-positive) leg
count being what `get_num_legs` then returns. -/
theorem C10_even_acceptance (r : Robot) (N : ℤ) :
    ((set_num_legs r N).2 = none ↔ N % 2 = 0) ∧
    (N % 2 = 0 → get_num_legs (set_num_legs r N).1 = N) ∧
    (N % 2 = 0 → N ≤ 0 →
      (set_num_legs r N).1 =
        { r with legs := N, bodies_geoms := [(r.main_body, r.main_geom)] }) := by
  refine ⟨?_, fun he => (set_num_legs_even_parts r N he).2.1, fun he hle => ?_⟩
  · by_cases h : N % 2 = 0
    · simp [(set_num_legs_even_parts r N h).1, h]
    · rw [set_num_legs_odd r N h]
      simp [h]
  · have hN0 : N.toNat = 0 := by omega
    rw [set_num_legs_even r N he, create_legs_eq]
    simp [hN0]

/-- C10 witness: `set_num_legs (-2)` on a freshly constructed robot. -/
theorem C10_witness :
    get_num_legs (set_num_legs (initRobot defaultPosition "") (-2)).1 = -2 ∧
    (set_num_legs (initRobot defaultPosition "") (-2)).1 =
      { initRobot defaultPosition "" with
        legs := -2
        bodies_geoms := [((initRobot defaultPosition "").main_body,
          (initRobot defaultPosition "").main_geom)] } :=
  ⟨(C10_even_acceptance (initRobot defaultPosition "") (-2)).2.1 (by norm_num),
   (C10_even_acceptance (initRobot defaultPosition "") (-2)).2.2
     (by norm_num) (by norm_num)⟩

theorem initRobot_joints_length (p : Vec3) (nm : String) :
    (initRobot p nm).joints.length = 4 := by
  rw [initRobot_eq]
  simp

theorem initRobot_passpairs_length (p : Vec3) (nm : String) :
    (initRobot p nm).passpairs.length = 4 := by
  rw [initRobot_eq]
  simp

theorem initRobot_legs (p : Vec3) (nm : String) : (initRobot p nm).legs = 4 := by
  rw [initRobot_eq]
  rfl

theorem initRobot_main_body (p : Vec3) (nm : String) :
    (initRobot p nm).main_body = initMainBody p := by
  rw [initRobot_eq]
  rfl

theorem initRobot_joints_shape (p : Vec3) (nm : String) :
    ∀ j ∈ (initRobot p nm).joints,
      j.body1 = "robot_body" ∧ isLegName j.body2 = true := by
  intro j hj
  rw [initRobot_eq] at hj
  simp only [List.mem_map, List.mem_range] at hj
  obtain ⟨i, -, rfl⟩ := hj
  exact ⟨rfl, isLegName_mkLegName i⟩

/-- C6: for an even leg count, leg x-offsets are mirror-symmetric — every leg
has a leg whose x-offset is the exact negation of its own — and in the odd
`legs_per_side` case the legs with index below 2 sit at x-offset 0. -/
theorem C6_x_offset_symmetry (N : ℤ) (bx : ℚ) (h2 : 2 ≤ N) (he : N % 2 = 0)
    (n : ℕ) (hn : (n : ℤ) < N) :
    (Int.fdiv N 2 % 2 = 1 → n < 2 → leg_x_offset N bx n = 0) ∧
    ∃ m : ℕ, (m : ℤ) < N ∧ leg_x_offset N bx m = - leg_x_offset N bx n := by
  rw [fdiv_two_eq]
  by_cases hodd : N / 2 % 2 = 1
  · by_cases hn2 : n < 2
    · refine ⟨fun _ _ => ?_, ⟨n, hn, ?_⟩⟩
      · rw [leg_x_offset_eq_spec, spec_leg_x_offset_odd_lt2 _ _ _ hodd hn2]
      · rw [leg_x_offset_eq_spec,
          spec_leg_x_offset_odd_lt2 _ _ _ hodd hn2]
        norm_num
    · refine ⟨fun _ h => absurd h hn2, ?_⟩
      by_cases hm : n % 4 > 1
      · refine ⟨n + 2, by omega, ?_⟩
        rw [leg_x_offset_eq_spec, leg_x_offset_eq_spec,
          spec_leg_x_offset_odd_ge2 _ _ _ hodd (by omega),
          spec_leg_x_offset_odd_ge2 _ _ _ hodd (by omega),
          if_neg (by omega), if_pos hm,
          show (n + 2 - 2) / 4 + 1 = (n - 2) / 4 + 1 by omega]
        ring
      · refine ⟨n - 2, by omega, ?_⟩
        rw [leg_x_offset_eq_spec, leg_x_offset_eq_spec,
          spec_leg_x_offset_odd_ge2 _ _ _ hodd (by omega),
          spec_leg_x_offset_odd_ge2 _ _ _ hodd (by omega),
          if_pos (by omega), if_neg hm,
          show (n - 2 - 2) / 4 + 1 = (n - 2) / 4 + 1 by omega]
        ring
  · refine ⟨fun h => absurd h hodd, ?_⟩
    by_cases hm : n % 4 > 1
    · refine ⟨n - 2, by omega, ?_⟩
      rw [leg_x_offset_eq_spec, leg_x_offset_eq_spec,
        spec_leg_x_offset_even _ _ _ hodd, spec_leg_x_offset_even _ _ _ hodd,
        if_neg (by omega), if_pos hm,
        show (n - 2) / 4 + 1 = n / 4 + 1 by omega]
      ring
    · refine ⟨n + 2, by omega, ?_⟩
      rw [leg_x_offset_eq_spec, leg_x_offset_eq_spec,
        spec_leg_x_offset_even _ _ _ hodd, spec_leg_x_offset_even _ _ _ hodd,
        if_pos (by omega), if_neg hm,
        show (n + 2) / 4 + 1 = n / 4 + 1 by omega]
      ring

/-- C6 witness: leg count 4, body size x 4, leg 0. -/
theorem C6_witness :
    (Int.fdiv (4 : ℤ) 2 % 2 = 1 → (0 : ℕ) < 2 → leg_x_offset 4 4 0 = 0) ∧
    ∃ m : ℕ, (m : ℤ) < 4 ∧ leg_x_offset 4 4 m = - leg_x_offset 4 4 0 :=
  C6_x_offset_symmetry 4 4 (by norm_num) (by norm_num) 0 (by norm_num)

/-- C2 counterexample: on the freshly constructed robot (4 legs, 4 joints),
the successful call `set_num_legs 2` leaves the old 4 joints in place and
appends 2 more, so the robot then stores 6 joints but a leg count of 2 — the
claimed invariant fails after a successful `SetLegCount`. -/
theorem C2_counterexample :
    (set_num_legs (initRobot defaultPosition "") 2).2 = none ∧
    (set_num_legs (initRobot defaultPosition "") 2).1.joints.length ≠
      ((set_num_legs (initRobot defaultPosition "") 2).1.legs).toNat := by
  obtain ⟨ha, hb, -, hj, -⟩ :=
    set_num_legs_even_parts (initRobot defaultPosition "") 2 (by norm_num)
  refine ⟨ha, ?_⟩
  rw [hj, hb, initRobot_joints_length]
  decide

/-- C2 (amended): after construction the number of joints equals the leg
count; a successful `set_num_legs` appends fresh joints without clearing the
old ones, so after any sequence of successful calls the joint count is the
total number of legs ever created (4 at construction plus each call's count);
and every joint attaches the torso body, by name, to exactly one leg body. -/
theorem C2_amended (p : Vec3) (nm : String) (ns : List ℤ)
    (h : ∀ n ∈ ns, n % 2 = 0) :
    (initRobot p nm).joints.length = (initRobot p nm).legs.toNat ∧
    (runSetLegs (initRobot p nm) ns).joints.length =
      4 + (ns.map Int.toNat).sum ∧
    ∀ j ∈ (runSetLegs (initRobot p nm) ns).joints,
      j.body1 = "robot_body" ∧ isLegName j.body2 = true := by
  refine ⟨?_, ?_, ?_⟩
  · rw [initRobot_joints_length, initRobot_legs]
    decide
  · rw [runSetLegs_joints_length ns _ h, initRobot_joints_length]
  · exact (runSetLegs_joints_shape ns _
      (by rw [initRobot_main_body]; rfl) (initRobot_joints_shape p nm)).2

/-- C2 (amended) witness: one successful `set_num_legs 2` call. -/
theorem C2_amended_witness :
    (initRobot defaultPosition "").joints.length =
      (initRobot defaultPosition "").legs.toNat ∧
    (runSetLegs (initRobot defaultPosition "") [2]).joints.length =
      4 + (([2] : List ℤ).map Int.toNat).sum ∧
    ∀ j ∈ (runSetLegs (initRobot defaultPosition "") [2]).joints,
      j.body1 = "robot_body" ∧ isLegName j.body2 = true :=
  C2_amended defaultPosition "" [2] (by decide)

/-- C9: each leg creation appends exactly one (parent-name, leg-name)
collision-filter pair; `set_num_legs` never removes previously accumulated
pairs (the old list is always an initial segment of the new one); hence after
any sequence of successful `set_num_legs` calls on a freshly constructed
robot, the list length is the total number of legs ever created. -/
theorem C9_passpairs_monotone (p : Vec3) (nm : String) (ns : List ℤ)
    (h : ∀ n ∈ ns, n % 2 = 0) :
    (∀ (r : Robot) (b : Body) (k : ℕ),
      (create_leg r b k).passpairs = r.passpairs ++ [(b.name, mkLegName k)]) ∧
    (∀ (r : Robot) (m : ℤ),
      ∃ t, (set_num_legs r m).1.passpairs = r.passpairs ++ t) ∧
    (runSetLegs (initRobot p nm) ns).passpairs.length =
      4 + (ns.map Int.toNat).sum := by
  refine ⟨fun r b k => by rw [create_leg_eq], set_num_legs_passpairs_append, ?_⟩
  rw [runSetLegs_passpairs_length ns _ h, initRobot_passpairs_length]

/-- C9 witness: two successful calls, 2 then 6 legs. -/
theorem C9_witness :
    (∀ (r : Robot) (b : Body) (k : ℕ),
      (create_leg r b k).passpairs = r.passpairs ++ [(b.name, mkLegName k)]) ∧
    (∀ (r : Robot) (m : ℤ),
      ∃ t, (set_num_legs r m).1.passpairs = r.passpairs ++ t) ∧
    (runSetLegs (initRobot defaultPosition "") [2, 6]).passpairs.length =
      4 + (([2, 6] : List ℤ).map Int.toNat).sum :=
  C9_passpairs_monotone defaultPosition "" [2, 6] (by decide)

theorem option_map_congr {α β : Type} (o : Option α) (f g : α → β)
    (h : ∀ a, f a = g a) : o.map f = o.map g := by
  cases o <;> simp [h]

/-- C7: `reset` restores every body's position and rotation to the initial
snapshot stored at that part's creation, zeroes its linear and angular
velocity, and sets every joint's target-velocity parameter to 0, while
leaving joint angle limits, anchors, axes, attachments, every configuration
parameter, the snapshots themselves, the geometries and the list lengths (no
part is recreated) unchanged. -/
theorem C7_reset (r : Robot) :
    ((reset r).bodies_geoms.length = r.bodies_geoms.length ∧
     (reset r).joints.length = r.joints.length) ∧
    (∀ i : ℕ,
      ((reset r).bodies_geoms[i]?).map (fun q => q.1.position) =
        (r.bodies_geoms[i]?).map (fun q => q.1.initial_position) ∧
      ((reset r).bodies_geoms[i]?).map (fun q => q.1.rotation) =
        (r.bodies_geoms[i]?).map (fun q => q.1.initial_rotation) ∧
      ((reset r).bodies_geoms[i]?).map (fun q => (q.1.linearVel, q.1.angularVel)) =
        (r.bodies_geoms[i]?).map
          (fun _ => ((⟨0, 0, 0⟩ : Vec3), (⟨0, 0, 0⟩ : Vec3))) ∧
      ((reset r).bodies_geoms[i]?).map
          (fun q => (q.1.name, q.1.initial_position, q.1.initial_rotation,
            q.1.mass, q.2)) =
        (r.bodies_geoms[i]?).map
          (fun q => (q.1.name, q.1.initial_position, q.1.initial_rotation,
            q.1.mass, q.2))) ∧
    (∀ i : ℕ,
      ((reset r).joints[i]?).map (fun j => j.vel) =
        (r.joints[i]?).map (fun _ => (0 : ℚ)) ∧
      ((reset r).joints[i]?).map
          (fun j => (j.name, j.body1, j.body2, j.anchor, j.axis,
            j.loStop, j.hiStop, j.fMax)) =
        (r.joints[i]?).map
          (fun j => (j.name, j.body1, j.body2, j.anchor, j.axis,
            j.loStop, j.hiStop, j.fMax))) ∧
    ((reset r).legs = r.legs ∧ (reset r).body_density = r.body_density ∧
     (reset r).leg_density = r.leg_density ∧ (reset r).body_size = r.body_size ∧
     (reset r).leg_radius = r.leg_radius ∧
     (reset r).leg_length = r.leg_length ∧
     (reset r).leg_y_offset = r.leg_y_offset ∧
     (reset r).leg_rotation = r.leg_rotation ∧
     (reset r).passpairs = r.passpairs ∧
     (reset r).main_body.position = r.main_body.initial_position ∧
     (reset r).main_body.rotation = r.main_body.initial_rotation) := by
  refine ⟨⟨by simp [reset], by simp [reset]⟩, fun i => ⟨?_, ?_, ?_, ?_⟩,
    fun i => ⟨?_, ?_⟩, by simp [reset, resetBody]⟩ <;>
  · simp only [reset, resetBody, List.getElem?_map, Option.map_map]
    exact option_map_congr _ _ _ fun q => rfl

/-- C8: `set_body_density d` recomputes only the torso's mass spec, to a box
mass of density `d` with the current body dimensions, leaving every leg's
mass spec and all non-mass attributes unchanged; `set_leg_density d`
recomputes the capped-cylinder mass spec of exactly the parts whose name
carries the "robot_leg" prefix (which the torso's name does not), leaving the
torso's mass spec unchanged. -/
theorem C8_density_setters (r : Robot) (d : ℚ) :
    ((set_body_density r d).main_body.mass =
        .box d r.body_size.x r.body_size.y r.body_size.z ∧
     (set_body_density r d).body_density = d ∧
     (∀ i : ℕ,
       ((set_body_density r d).bodies_geoms[i]?).map (fun q => q.1.mass) =
         (r.bodies_geoms[i]?).map (fun q =>
           if q.1.name = "robot_body" then
             MassSpec.box d r.body_size.x r.body_size.y r.body_size.z
           else q.1.mass) ∧
       ((set_body_density r d).bodies_geoms[i]?).map
           (fun q => (q.1.name, q.1.position, q.1.rotation,
             q.1.initial_position, q.1.initial_rotation, q.1.linearVel,
             q.1.angularVel, q.2)) =
         (r.bodies_geoms[i]?).map
           (fun q => (q.1.name, q.1.position, q.1.rotation,
             q.1.initial_position, q.1.initial_rotation, q.1.linearVel,
             q.1.angularVel, q.2))) ∧
     (set_body_density r d).joints = r.joints ∧
     (set_body_density r d).leg_density = r.leg_density) ∧
    (isLegName "robot_body" = false ∧
     (set_leg_density r d).main_body = r.main_body ∧
     (set_leg_density r d).leg_density = d ∧
     (∀ i : ℕ,
       ((set_leg_density r d).bodies_geoms[i]?).map (fun q => q.1.mass) =
         (r.bodies_geoms[i]?).map (fun q =>
           if isLegName q.1.name then
             MassSpec.cappedCylinder d 3 r.leg_radius r.leg_length
           else q.1.mass) ∧
       ((set_leg_density r d).bodies_geoms[i]?).map
           (fun q => (q.1.name, q.1.position, q.1.rotation,
             q.1.initial_position, q.1.initial_rotation, q.1.linearVel,
             q.1.angularVel, q.2)) =
         (r.bodies_geoms[i]?).map
           (fun q => (q.1.name, q.1.position, q.1.rotation,
             q.1.initial_position, q.1.initial_rotation, q.1.linearVel,
             q.1.angularVel, q.2))) ∧
     (set_leg_density r d).joints = r.joints ∧
     (set_leg_density r d).body_density = r.body_density) := by
  refine ⟨⟨rfl, rfl, fun i => ⟨?_, ?_⟩, rfl, rfl⟩,
    ⟨isLegName_robot_body, rfl, rfl, fun i => ⟨?_, ?_⟩, rfl, rfl⟩⟩
  · simp only [set_body_density, List.getElem?_map, Option.map_map]
    apply option_map_congr
    intro q
    by_cases hq : q.1.name = "robot_body" <;> simp [hq]
  · simp only [set_body_density, List.getElem?_map, Option.map_map]
    apply option_map_congr
    intro q
    by_cases hq : q.1.name = "robot_body" <;> simp [hq]
  · simp only [set_leg_density, List.getElem?_map, Option.map_map]
    apply option_map_congr
    intro q
    by_cases hq : isLegName q.1.name <;> simp [hq]
  · simp only [set_leg_density, List.getElem?_map, Option.map_map]
    apply option_map_congr
    intro q
    by_cases hq : isLegName q.1.name <;> simp [hq]

/-- C5: default construction at position (0,150,0) yields exactly 5
body/geometry pairs, 4 joints and 4 collision-filter pairs, and leg 0 (the
second body/geometry entry) sits at offset (-1, -2.9, +1) from the torso:
even branch with `leg_x_spacing = (4/2)/2 = 1`, bucket `0/4 + 1 = 1`,
`0 % 4 = 0` not `> 1` so x = -1; `leg_y_offset = 2.9`; `leg_z_spacing = 1`
and 0 even so z = +1. -/
theorem C5_default_construction :
    (initRobot ⟨0, 150, 0⟩ "").bodies_geoms.length = 5 ∧
    (initRobot ⟨0, 150, 0⟩ "").joints.length = 4 ∧
    (initRobot ⟨0, 150, 0⟩ "").passpairs.length = 4 ∧
    ((initRobot ⟨0, 150, 0⟩ "").bodies_geoms[1]?).map
        (fun q => (q.1.position.x - (get_position (initRobot ⟨0, 150, 0⟩ "")).x,
          q.1.position.y - (get_position (initRobot ⟨0, 150, 0⟩ "")).y,
          q.1.position.z - (get_position (initRobot ⟨0, 150, 0⟩ "")).z)) =
      some (-1, -(29/10), 1) := by
  refine ⟨?_, initRobot_joints_length _ _, initRobot_passpairs_length _ _, ?_⟩
  · rw [initRobot_eq]
    simp
  · simp only [get_position, initRobot_main_body]
    rw [initRobot_eq]
    rw [show (List.range 4) = [0, 1, 2, 3] from rfl]
    simp only [List.map_cons, List.map_nil, List.getElem?_cons_succ,
      List.getElem?_cons_zero, Option.map_some]
    simp only [legBody, initState, initMainBody, leg_x_offset, leg_z_offset]
    norm_num [Int.fdiv, min_def]

end ALife
